import Mathlib

set_option autoImplicit false
set_option maxHeartbeats 1000000

/-!
Verification development for the gwda WebDriverAgent HTTP client
(`src/session.go`).  The session operations are embedded shallowly:

* Go strings are Lean `String`s, except where byte-level content matters
  (base64 payloads), where a Go string is its byte sequence `List Nat`
  (each byte `< 256`).
* JSON values are the inductive `JVal`; JSON numbers are modelled as
  integers, since no verified claim depends on a fractional value.
* The HTTP transport is an explicit parameter `tr : Transport` mapping the
  request an operation builds to either a transport error or a decoded
  response envelope; each session method calls it exactly once, exactly
  as the Go methods call `internalGet` / `internalPost` once.
* Go's `(value, error)` multiple return is a pair `value × Option GwdaErr`.
-/

/-- JSON values.  Numbers are modelled as integers (see module comment). -/
inductive JVal where
  | jnull : JVal
  | jbool : Bool → JVal
  | jnum : Int → JVal
  | jstr : String → JVal
  | jarr : List JVal → JVal
  | jobj : List (String × JVal) → JVal

mutual

/-- The raw JSON text of a value, as `gjson` exposes it via `.Raw`:
a canonical serialization of the value. -/
def JVal.rawText : JVal → String
  | .jnull => "null"
  | .jbool true => "true"
  | .jbool false => "false"
  | .jnum n => toString n
  | .jstr s => "\x22" ++ s ++ "\x22"
  | .jarr xs => "[" ++ JVal.rawTextArr xs ++ "]"
  | .jobj fs => "\x7b" ++ JVal.rawTextObj fs ++ "\x7d"

/-- Comma-separated serialization of array elements. -/
def JVal.rawTextArr : List JVal → String
  | [] => ""
  | [x] => JVal.rawText x
  | x :: y :: rest => JVal.rawText x ++ "," ++ JVal.rawTextArr (y :: rest)

/-- Comma-separated serialization of object fields. -/
def JVal.rawTextObj : List (String × JVal) → String
  | [] => ""
  | [(k, v)] => "\x22" ++ k ++ "\x22:" ++ JVal.rawText v
  | (k, v) :: p :: rest =>
      "\x22" ++ k ++ "\x22:" ++ JVal.rawText v ++ "," ++ JVal.rawTextObj (p :: rest)

end

/-- `gjson` `Result.String()`: a JSON string yields its content, `null`
yields the empty string, anything else yields its raw JSON text. -/
def JVal.gstring : JVal → String
  | .jnull => ""
  | .jstr s => s
  | .jbool b => JVal.rawText (.jbool b)
  | .jnum n => JVal.rawText (.jnum n)
  | .jarr xs => JVal.rawText (.jarr xs)
  | .jobj fs => JVal.rawText (.jobj fs)

/-- `gjson` `Result.Get(key)` on one object level: field lookup,
missing keys give the null result. -/
def JVal.jget (v : JVal) (key : String) : JVal :=
  match v with
  | .jobj fs => ((fs.find? (fun p => p.1 = key)).map (fun p => p.2)).getD .jnull
  | _ => .jnull

/-- `gjson` `Result.Array()`: an array yields its elements, `null` yields
the empty list, any other value yields itself as a one-element list. -/
def JVal.gjsonArray : JVal → List JVal
  | .jnull => []
  | .jarr xs => xs
  | .jbool b => [.jbool b]
  | .jnum n => [.jnum n]
  | .jstr s => [.jstr s]
  | .jobj fs => [.jobj fs]

/-- `gjson` `Result.Int()` restricted to the shapes the claims exercise:
a JSON number yields its integer value, `true` yields 1, everything else 0. -/
def JVal.gint : JVal → Int
  | .jnum n => n
  | .jbool true => 1
  | _ => 0

/-- The failure taxonomy of the spec (section 7): transport, server,
decode, no-such-element and local IO failures. -/
inductive GwdaErr where
  | transportError : String → GwdaErr
  | serverError : String → GwdaErr
  | decodeError : String → GwdaErr
  | noSuchElement : GwdaErr
  | ioError : String → GwdaErr

/-- Modelled from the spec: the response envelope (`wdaResponse`, defined
outside `src/`) is "a generic response wrapper exposing a `value` payload
and an optional embedded error message"; the absent message is the empty
string. -/
structure WdaResponse where
  value : JVal
  errMsg : String

/-- Modelled from the spec: `wdaResponse.getValue()` exposes the `value`
payload of the envelope. -/
def WdaResponse.getValue (r : WdaResponse) : JVal := r.value

/-- Modelled from the spec: `wdaResponse.getErrMsg()` reports a
`ServerError` exactly when "the response envelope carries a non-empty
embedded error message", and no error otherwise. -/
def WdaResponse.getErrMsg (r : WdaResponse) : Option GwdaErr :=
  if r.errMsg = "" then none else some (.serverError r.errMsg)

/-- A JSON-serializable request-body field value (`interface\x7b\x7d`
values stored in `wdaBody`).  Numeric values are modelled as integers. -/
inductive BVal where
  | s : String → BVal
  | b : Bool → BVal
  | i : Int → BVal
  | strList : List String → BVal
  | strMap : List (String × String) → BVal

/-- Modelled from the spec: the request body builder (`wdaBody`, a
`map[string]interface\x7b\x7d` defined outside `src/`): "an ordered
key-value body builder that accumulates JSON-serializable fields". -/
structure wdaBody where
  fields : List (String × BVal)

/-- Modelled from the spec: `newWdaBody()` makes an empty body. -/
def newWdaBody : wdaBody := ⟨[]⟩

/-- Modelled from the spec: `wdaBody.set(key, value)` map assignment:
overwrite the field when the key is present, append it otherwise. -/
def wdaBody.set (body : wdaBody) (key : String) (v : BVal) : wdaBody :=
  if body.fields.any (fun p => p.1 = key) then
    ⟨body.fields.map (fun p => if p.1 = key then (key, v) else p)⟩
  else
    ⟨body.fields ++ [(key, v)]⟩

/-- Field lookup in a built body (for stating payload properties). -/
def wdaBody.get (body : wdaBody) (key : String) : Option BVal :=
  (body.fields.find? (fun p => p.1 = key)).map (fun p => p.2)

/-- Modelled from the spec: `wdaBody.setBundleID` stores the bundle id. -/
def wdaBody.setBundleID (body : wdaBody) (bundleId : String) : wdaBody :=
  body.set ("bundleId") (.s bundleId)

/-- Modelled from the spec: `wdaBody.setXY` stores tap coordinates. -/
def wdaBody.setXY (body : wdaBody) (x y : Int) : wdaBody :=
  (body.set ("x") (.i x)).set ("y") (.i y)

/-- Launch application configuration (`WDAAppLaunchOption`, a named copy of
`wdaBody`; `src/session.go:68`). -/
structure WDAAppLaunchOption where
  fields : List (String × BVal)

/-- `NewWDAAppLaunchOption` (`src/session.go:70`): the empty option set. -/
def NewWDAAppLaunchOption : WDAAppLaunchOption := ⟨[]⟩

/-- `WDAAppLaunchOption.SetShouldWaitForQuiescence` (`src/session.go:77`). -/
def WDAAppLaunchOption.SetShouldWaitForQuiescence
    (alo : WDAAppLaunchOption) (b : Bool) : WDAAppLaunchOption :=
  ⟨(wdaBody.set ⟨alo.fields⟩ ("shouldWaitForQuiescence") (.b b)).fields⟩

/-- `WDAAppLaunchOption.SetArguments` (`src/session.go:84`). -/
def WDAAppLaunchOption.SetArguments
    (alo : WDAAppLaunchOption) (args : List String) : WDAAppLaunchOption :=
  ⟨(wdaBody.set ⟨alo.fields⟩ ("arguments") (.strList args)).fields⟩

/-- `WDAAppLaunchOption.SetEnvironment` (`src/session.go:91`). -/
def WDAAppLaunchOption.SetEnvironment
    (alo : WDAAppLaunchOption) (env : List (String × String)) : WDAAppLaunchOption :=
  ⟨(wdaBody.set ⟨alo.fields⟩ ("environment") (.strMap env)).fields⟩

/-- Modelled from the spec: `wdaBody.setAppLaunchOption` (defined outside
`src/`) merges the option's recognized fields (`shouldWaitForQuiescence`,
`arguments`, `environment`) into the request body, which is then posted as
`\x7bbundleId, shouldWaitForQuiescence?, arguments?, environment?\x7d`. -/
def wdaBody.setAppLaunchOption (body : wdaBody) (opt : WDAAppLaunchOption) : wdaBody :=
  opt.fields.foldl (fun acc kv => acc.set kv.1 kv.2) body

/-- Modelled from the spec: `urlJoin` (defined outside `src/`) derives a
sub-path URL "by joining the session URL with" path elements; empty
elements are dropped and a leading slash in an element is normalized, so
the result always extends the base URL. -/
def urlJoin (base : String) (elems : List String) : String :=
  base ++ String.join (((elems.filter (fun e => e ≠ "")).map
    (fun e => "/" ++ (if e.startsWith ("/") then e.drop 1 else e))))

/-- An outgoing HTTP request as the transport shim receives it:
method, the operation name passed to `internalGet`/`internalPost`,
the joined URL, and the JSON body. -/
structure Request where
  method : String
  apiName : String
  url : String
  body : wdaBody

/-- The transport shim (`internalGet`/`internalPost`, an external
collaborator per the spec): maps the request to a transport failure or a
decoded response envelope. -/
abbrev Transport := Request → Except GwdaErr WdaResponse

/-- `Session` (`src/session.go:13`): a passive holder of the session URL. -/
structure Session where
  sessionURL : String

/-- `Element` (declared outside `src/`): an opaque handle holding the
element sub-URL, per spec section 4.2. -/
structure Element where
  elementURL : String

/-- `url` is `base` extended by some suffix (used to state the
"prefixed by the session's base URL" property). -/
def urlHasBase (base url : String) : Prop := ∃ t, url = base ++ t

theorem urlJoin_hasBase (base : String) (elems : List String) :
    urlHasBase base (urlJoin base elems) :=
  ⟨_, rfl⟩

/-! ## Base64 (Go `encoding/base64`)

`base64.StdEncoding` and `base64.URLEncoding` differ only in their
alphabets ("+/" vs "-_", both padded with `=`).  Bytes are `Nat`s `< 256`. -/

/-- The standard base64 alphabet (`base64.StdEncoding`). -/
def stdB64Alphabet : List Char :=
  ("ABCDEFGHIJKLMNOPQRSTUVWXYZabcdefghijklmnopqrstuvwxyz0123456789+/").toList

/-- The URL-safe base64 alphabet (`base64.URLEncoding`). -/
def urlB64Alphabet : List Char :=
  ("ABCDEFGHIJKLMNOPQRSTUVWXYZabcdefghijklmnopqrstuvwxyz0123456789-_").toList

/-- The alphabet character of a six-bit group. -/
def encChar (alpha : List Char) (n : Nat) : Char := alpha.getD n 'A'

/-- The six-bit group of an alphabet character, if any. -/
def decChar (alpha : List Char) (c : Char) : Option Nat :=
  alpha.findIdx? (fun a => a = c)

/-- Base64 encoding of a byte sequence over a given alphabet, with `=`
padding, as `base64.Encoding.EncodeToString` produces it. -/
def b64Encode (alpha : List Char) : List Nat → List Char
  | [] => []
  | [b1] =>
      [encChar alpha (b1 / 4), encChar alpha (b1 % 4 * 16), '=', '=']
  | [b1, b2] =>
      [encChar alpha (b1 / 4), encChar alpha (b1 % 4 * 16 + b2 / 16),
       encChar alpha (b2 % 16 * 4), '=']
  | b1 :: b2 :: b3 :: rest =>
      encChar alpha (b1 / 4) :: encChar alpha (b1 % 4 * 16 + b2 / 16) ::
      encChar alpha (b2 % 16 * 4 + b3 / 64) :: encChar alpha (b3 % 64) ::
      b64Encode alpha rest

/-- Base64 decoding over a given alphabet: the reference decoder used to
state round-trip properties (groups of four characters, `=` padding only
at the end). -/
def b64Decode (alpha : List Char) : List Char → Option (List Nat)
  | [] => some []
  | c1 :: c2 :: c3 :: c4 :: rest =>
      match decChar alpha c1, decChar alpha c2 with
      | some n1, some n2 =>
          if c3 = '=' then
            if c4 = '=' ∧ rest = [] then some [n1 * 4 + n2 / 16] else none
          else
            match decChar alpha c3 with
            | some n3 =>
                if c4 = '=' then
                  if rest = [] then
                    some [n1 * 4 + n2 / 16, n2 % 16 * 16 + n3 / 4]
                  else none
                else
                  match decChar alpha c4, b64Decode alpha rest with
                  | some n4, some bs =>
                      some ((n1 * 4 + n2 / 16) :: (n2 % 16 * 16 + n3 / 4) ::
                            (n3 % 4 * 64 + n4) :: bs)
                  | _, _ => none
            | none => none
      | _, _ => none
  | _ => none

/-- Substitution relating the two alphabets character-wise. -/
def urlSub (c : Char) : Char :=
  if c = '+' then '-' else if c = '/' then '_' else c

theorem decChar_encChar_std : ∀ n : Nat, n < 64 →
    decChar stdB64Alphabet (encChar stdB64Alphabet n) = some n := by
  decide

theorem encChar_std_ne_pad : ∀ n : Nat, n < 64 →
    encChar stdB64Alphabet n ≠ '=' := by
  decide

theorem encChar_url_eq_sub : ∀ n : Nat, n < 64 →
    encChar urlB64Alphabet n = urlSub (encChar stdB64Alphabet n) := by
  decide

/-- Standard base64 decoding inverts standard base64 encoding on byte
sequences. -/
theorem b64_roundtrip_std : ∀ bs : List Nat, (∀ b ∈ bs, b < 256) →
    b64Decode stdB64Alphabet (b64Encode stdB64Alphabet bs) = some bs := by
  intro bs
  induction bs using b64Encode.induct stdB64Alphabet with
  | case1 =>
      intro _
      simp [b64Encode, b64Decode]
  | case2 b1 =>
      intro h
      have hb1 : b1 < 256 := h b1 (by simp)
      have h1 : b1 / 4 < 64 := by omega
      have h2 : b1 % 4 * 16 < 64 := by omega
      simp only [b64Encode, b64Decode, decChar_encChar_std _ h1,
        decChar_encChar_std _ h2]
      simp only [and_self, if_true, Option.some.injEq, List.cons.injEq, and_true]
      omega
  | case3 b1 b2 =>
      intro h
      have hb1 : b1 < 256 := h b1 (by simp)
      have hb2 : b2 < 256 := h b2 (by simp)
      have h1 : b1 / 4 < 64 := by omega
      have h2 : b1 % 4 * 16 + b2 / 16 < 64 := by omega
      have h3 : b2 % 16 * 4 < 64 := by omega
      simp only [b64Encode, b64Decode, decChar_encChar_std _ h1,
        decChar_encChar_std _ h2, decChar_encChar_std _ h3,
        if_neg (encChar_std_ne_pad _ h3)]
      simp only [and_self, if_true, Option.some.injEq, List.cons.injEq, and_true]
      omega
  | case4 b1 b2 b3 rest ih =>
      intro h
      have hb1 : b1 < 256 := h b1 (by simp)
      have hb2 : b2 < 256 := h b2 (by simp)
      have hb3 : b3 < 256 := h b3 (by simp)
      have hrest : ∀ b ∈ rest, b < 256 := by
        intro b hb; exact h b (by simp [hb])
      have h1 : b1 / 4 < 64 := by omega
      have h2 : b1 % 4 * 16 + b2 / 16 < 64 := by omega
      have h3 : b2 % 16 * 4 + b3 / 64 < 64 := by omega
      have h4 : b3 % 64 < 64 := by omega
      simp only [b64Encode, b64Decode, decChar_encChar_std _ h1,
        decChar_encChar_std _ h2, decChar_encChar_std _ h3,
        decChar_encChar_std _ h4, if_neg (encChar_std_ne_pad _ h3),
        if_neg (encChar_std_ne_pad _ h4), ih hrest, Option.some.injEq,
        List.cons.injEq]
      refine ⟨by omega, by omega, by omega, trivial⟩

theorem urlSub_pad : urlSub '=' = '=' := by decide

/-- URL-safe base64 encoding is the standard encoding with `+` replaced by
`-` and `/` replaced by `_`, character for character. -/
theorem b64Encode_url_eq_map : ∀ bs : List Nat, (∀ b ∈ bs, b < 256) →
    b64Encode urlB64Alphabet bs = (b64Encode stdB64Alphabet bs).map urlSub := by
  intro bs
  induction bs using b64Encode.induct urlB64Alphabet with
  | case1 => intro _; rfl
  | case2 b1 =>
      intro h
      have hb1 : b1 < 256 := h b1 (by simp)
      simp only [b64Encode, List.map]
      rw [encChar_url_eq_sub _ (by omega), encChar_url_eq_sub _ (by omega),
        urlSub_pad]
  | case3 b1 b2 =>
      intro h
      have hb1 : b1 < 256 := h b1 (by simp)
      have hb2 : b2 < 256 := h b2 (by simp)
      simp only [b64Encode, List.map]
      rw [encChar_url_eq_sub _ (by omega), encChar_url_eq_sub _ (by omega),
        encChar_url_eq_sub _ (by omega), urlSub_pad]
  | case4 b1 b2 b3 rest ih =>
      intro h
      have hb1 : b1 < 256 := h b1 (by simp)
      have hb2 : b2 < 256 := h b2 (by simp)
      have hb3 : b3 < 256 := h b3 (by simp)
      have hrest : ∀ b ∈ rest, b < 256 := by
        intro b hb; exact h b (by simp [hb])
      simp only [b64Encode, List.map]
      rw [encChar_url_eq_sub _ (by omega), encChar_url_eq_sub _ (by omega),
        encChar_url_eq_sub _ (by omega), encChar_url_eq_sub _ (by omega),
        ih hrest]

/-- A character-wise substitution that leaves a list unchanged leaves each
member unchanged. -/
theorem char_map_fix {f : Char → Char} : ∀ l : List Char, l.map f = l →
    ∀ a ∈ l, f a = a := by
  intro l
  induction l with
  | nil => intro _ a ha; cases ha
  | cons x xs ih =>
      intro h a ha
      rw [List.map_cons, List.cons.injEq] at h
      cases ha with
      | head => exact h.1
      | tail _ hmem => exact ih h.2 a hmem

/-- When the standard encoding of a byte sequence contains `+` or `/`, the
URL-safe encoding of the same bytes is a different character sequence. -/
theorem b64_url_ne_std (bs : List Nat) (hb : ∀ b ∈ bs, b < 256)
    (h : '+' ∈ b64Encode stdB64Alphabet bs ∨ '/' ∈ b64Encode stdB64Alphabet bs) :
    b64Encode urlB64Alphabet bs ≠ b64Encode stdB64Alphabet bs := by
  intro heq
  rw [b64Encode_url_eq_map bs hb] at heq
  rcases h with h | h
  · exact absurd (char_map_fix _ heq _ h) (by decide)
  · exact absurd (char_map_fix _ heq _ h) (by decide)

/-! ## Typed info structs and their `json.Unmarshal` decoders

Go's `json.Unmarshal` into a struct: a missing or `null` field leaves the
zero value, a present field of the wrong JSON type is an error, a
non-object payload is an error, and unexported fields (`_string`) are
never touched.  Decode failures surface as `DecodeError` per the spec's
taxonomy. -/

/-- Decode a string-typed struct field. -/
def jsonStrField (fs : List (String × JVal)) (key : String) : Except String String :=
  match ((fs.find? (fun p => p.1 = key)).map (fun p => p.2) : Option JVal) with
  | none => .ok ("")
  | some JVal.jnull => .ok ("")
  | some (JVal.jstr s) => .ok s
  | some _ => .error ("json: cannot unmarshal field " ++ key ++ " into string")

/-- Decode a numeric struct field (integers model all JSON numbers here). -/
def jsonNumField (fs : List (String × JVal)) (key : String) : Except String Int :=
  match ((fs.find? (fun p => p.1 = key)).map (fun p => p.2) : Option JVal) with
  | none => .ok 0
  | some JVal.jnull => .ok 0
  | some (JVal.jnum n) => .ok n
  | some _ => .error ("json: cannot unmarshal field " ++ key ++ " into number")

/-- Decode a boolean struct field. -/
def jsonBoolField (fs : List (String × JVal)) (key : String) : Except String Bool :=
  match ((fs.find? (fun p => p.1 = key)).map (fun p => p.2) : Option JVal) with
  | none => .ok false
  | some JVal.jnull => .ok false
  | some (JVal.jbool b) => .ok b
  | some _ => .error ("json: cannot unmarshal field " ++ key ++ " into bool")

/-- Decode a nested-object struct field into its field list. -/
def jsonObjField (fs : List (String × JVal)) (key : String) :
    Except String (List (String × JVal)) :=
  match ((fs.find? (fun p => p.1 = key)).map (fun p => p.2) : Option JVal) with
  | none => .ok []
  | some JVal.jnull => .ok []
  | some (JVal.jobj inner) => .ok inner
  | some _ => .error ("json: cannot unmarshal field " ++ key ++ " into struct")

/-- The anonymous `capabilities` struct of `WDASessionInfo`
(`src/session.go:18`). -/
structure WDASessionCapabilities where
  CFBundleIdentifier : String
  BrowserName : String
  Device : String
  SdkVersion : String

/-- `WDASessionInfo` (`src/session.go:17`): typed fields plus the retained
raw JSON text (`_string`). -/
structure WDASessionInfo where
  Capabilities : WDASessionCapabilities
  SessionID : String
  _string : String

/-- `json.Unmarshal` into `WDASessionInfo` (typed fields only; `_string`
is unexported and untouched, returned here as `""`). -/
def unmarshalWDASessionInfo (v : JVal) : Except String WDASessionInfo :=
  match v with
  | .jobj fs => do
      let caps ← jsonObjField fs ("capabilities")
      let cfb ← jsonStrField caps ("CFBundleIdentifier")
      let bn ← jsonStrField caps ("browserName")
      let dev ← jsonStrField caps ("device")
      let sdk ← jsonStrField caps ("sdkVersion")
      let sid ← jsonStrField fs ("sessionId")
      .ok ⟨⟨cfb, bn, dev, sdk⟩, sid, ""⟩
  | _ => .error ("json: cannot unmarshal value into WDASessionInfo")

/-- `WDADeviceInfo` (`src/session.go:115`). -/
structure WDADeviceInfo where
  TimeZone : String
  CurrentLocale : String
  Model : String
  UUID : String
  UserInterfaceIdiom : Int
  UserInterfaceStyle : String
  Name : String
  IsSimulator : Bool
  _string : String

/-- `json.Unmarshal` into `WDADeviceInfo`. -/
def unmarshalWDADeviceInfo (v : JVal) : Except String WDADeviceInfo :=
  match v with
  | .jobj fs => do
      let tz ← jsonStrField fs ("timeZone")
      let loc ← jsonStrField fs ("currentLocale")
      let mdl ← jsonStrField fs ("model")
      let uuid ← jsonStrField fs ("uuid")
      let idiom ← jsonNumField fs ("userInterfaceIdiom")
      let style ← jsonStrField fs ("userInterfaceStyle")
      let nm ← jsonStrField fs ("name")
      let sim ← jsonBoolField fs ("isSimulator")
      .ok ⟨tz, loc, mdl, uuid, idiom, style, nm, sim, ""⟩
  | _ => .error ("json: cannot unmarshal value into WDADeviceInfo")

/-- `WDABatteryInfo` (`src/session.go:154`): battery level (a float in Go,
integral here) and state code, plus the retained raw JSON text. -/
structure WDABatteryInfo where
  Level : Int
  State : Int
  _string : String

/-- `json.Unmarshal` into `WDABatteryInfo`.  The state code is decoded as
a plain integer: no validation against the defined codes is performed. -/
def unmarshalWDABatteryInfo (v : JVal) : Except String WDABatteryInfo :=
  match v with
  | .jobj fs => do
      let lv ← jsonNumField fs ("level")
      let st ← jsonNumField fs ("state")
      .ok ⟨lv, st, ""⟩
  | _ => .error ("json: cannot unmarshal value into WDABatteryInfo")

/-- `WDASize` (`src/session.go:228`). -/
structure WDASize where
  Width : Int
  Height : Int
  _string : String

/-- `json.Unmarshal` into `WDASize`. -/
def unmarshalWDASize (v : JVal) : Except String WDASize :=
  match v with
  | .jobj fs => do
      let w ← jsonNumField fs ("width")
      let h ← jsonNumField fs ("height")
      .ok ⟨w, h, ""⟩
  | _ => .error ("json: cannot unmarshal value into WDASize")

/-- `WDAScreen` (`src/session.go:238`). -/
structure WDAScreen where
  StatusBarSize : WDASize
  Scale : Int
  _string : String

/-- `json.Unmarshal` into `WDAScreen` (`scale` is a float in Go, integral
here; the nested `statusBarSize` decodes like `WDASize`). -/
def unmarshalWDAScreen (v : JVal) : Except String WDAScreen :=
  match v with
  | .jobj fs => do
      let sbFields ← jsonObjField fs ("statusBarSize")
      let w ← jsonNumField sbFields ("width")
      let h ← jsonNumField sbFields ("height")
      let sc ← jsonNumField fs ("scale")
      .ok ⟨⟨w, h, ""⟩, sc, ""⟩
  | _ => .error ("json: cannot unmarshal value into WDAScreen")

/-- Battery state code `WDABatteryUnplugged` (`src/session.go:168`). -/
def WDABatteryUnplugged : Int := 1

/-- Battery state code `WDABatteryCharging` (`src/session.go:169`). -/
def WDABatteryCharging : Int := 2

/-- Battery state code `WDABatteryFull` (`src/session.go:170`). -/
def WDABatteryFull : Int := 3

/-- `WDABatteryState.String()` (`src/session.go:173`). -/
def WDABatteryStateString (v : Int) : String :=
  if v = WDABatteryUnplugged then "On battery, discharging"
  else if v = WDABatteryCharging then "Plugged in, less than 100%"
  else if v = WDABatteryFull then "Plugged in, at 100%"
  else "UNKNOWN"

/-- App run state code `WDAAppNotRunning` (`src/session.go:359`). -/
def WDAAppNotRunning : Int := 1

/-- App run state code `WDAAppRunningBack` (`src/session.go:360`). -/
def WDAAppRunningBack : Int := 2

/-- App run state code `WDAAppRunningFront` (`src/session.go:361`). -/
def WDAAppRunningFront : Int := 4

/-- `WDAAppRunState.String()` (`src/session.go:364`). -/
def WDAAppRunStateString (v : Int) : String :=
  if v = WDAAppNotRunning then "Not Running"
  else if v = WDAAppRunningBack then "Running (Back)"
  else if v = WDAAppRunningFront then "Running (Front)"
  else "UNKNOWN"

/-- Pasteboard content type `plaintext` (`src/session.go:507`). -/
def WDAContentTypePlaintext : String := "plaintext"

/-- Pasteboard content type `image` (`src/session.go:508`). -/
def WDAContentTypeImage : String := "image"

/-- Pasteboard content type `url` (`src/session.go:509`). -/
def WDAContentTypeUrl : String := "url"

/-- Device button name `home` (`src/session.go:552`). -/
def WDADeviceButtonHome : String := "home"

/-- Device button name `volumeUp` (`src/session.go:553`). -/
def WDADeviceButtonVolumeUp : String := "volumeUp"

/-- Device button name `volumeDown` (`src/session.go:554`). -/
def WDADeviceButtonVolumeDown : String := "volumeDown"

/-! ## Session operations (`src/session.go`)

Each `<Op>Req` definition is the request the Go method hands to the
transport shim (`internalGet`/`internalPost`); `<Op>` itself performs the
single transport call and interprets the outcome exactly as the Go
method body does. -/

/-- Request of `Session.GetActiveSession` (`src/session.go:45`). -/
def Session.GetActiveSessionReq (s : Session) : Request :=
  ⟨"GET", "GetActiveSession", urlJoin s.sessionURL [""], newWdaBody⟩

/-- `Session.GetActiveSession` (`src/session.go:45`): the raw value text
is stored in `_string` before unmarshalling; unmarshalling never touches
`_string`. -/
def Session.GetActiveSession (s : Session) (tr : Transport) :
    WDASessionInfo × Option GwdaErr :=
  match tr s.GetActiveSessionReq with
  | .error e => (⟨⟨"", "", "", ""⟩, "", ""⟩, some e)
  | .ok resp =>
      let raw := resp.getValue.gstring
      match unmarshalWDASessionInfo resp.getValue with
      | .ok info => ({ info with _string := raw }, none)
      | .error m => (⟨⟨"", "", "", ""⟩, "", raw⟩, some (.decodeError m))

/-- Request of `Session.AppLaunch` (`src/session.go:104`): when no option
is supplied the default option `shouldWaitForQuiescence = true` is used;
the body is the bundle id plus the merged option fields. -/
def Session.AppLaunchReq (s : Session) (bundleId : String)
    (opt : List WDAAppLaunchOption) : Request :=
  let opt1 :=
    if opt.isEmpty then [NewWDAAppLaunchOption.SetShouldWaitForQuiescence true]
    else opt
  let body := (newWdaBody.setBundleID bundleId).setAppLaunchOption
    (opt1.headD NewWDAAppLaunchOption)
  ⟨"POST", "AppLaunch", urlJoin s.sessionURL [("/wda/apps/launch")], body⟩

/-- `Session.AppLaunch` (`src/session.go:104`). -/
def Session.AppLaunch (s : Session) (bundleId : String)
    (opt : List WDAAppLaunchOption) (tr : Transport) : Option GwdaErr :=
  match tr (s.AppLaunchReq bundleId opt) with
  | .error e => some e
  | .ok _ => none

/-- Request of `Session.DeviceInfo` (`src/session.go:142`). -/
def Session.DeviceInfoReq (s : Session) : Request :=
  ⟨"GET", "DeviceInfo", urlJoin s.sessionURL [("/wda/device/info")], newWdaBody⟩

/-- `Session.DeviceInfo` (`src/session.go:142`). -/
def Session.DeviceInfo (s : Session) (tr : Transport) :
    WDADeviceInfo × Option GwdaErr :=
  match tr s.DeviceInfoReq with
  | .error e => (⟨"", "", "", "", 0, "", "", false, ""⟩, some e)
  | .ok resp =>
      let raw := resp.getValue.gstring
      match unmarshalWDADeviceInfo resp.getValue with
      | .ok info => ({ info with _string := raw }, none)
      | .error m => (⟨"", "", "", "", 0, "", "", false, raw⟩, some (.decodeError m))

/-- Request of `Session.BatteryInfo` (`src/session.go:198`). -/
def Session.BatteryInfoReq (s : Session) : Request :=
  ⟨"GET", "BatteryInfo", urlJoin s.sessionURL [("/wda/batteryInfo")], newWdaBody⟩

/-- `Session.BatteryInfo` (`src/session.go:198`): the state code is
returned exactly as the server reported it. -/
def Session.BatteryInfo (s : Session) (tr : Transport) :
    WDABatteryInfo × Option GwdaErr :=
  match tr s.BatteryInfoReq with
  | .error e => (⟨0, 0, ""⟩, some e)
  | .ok resp =>
      let raw := resp.getValue.gstring
      match unmarshalWDABatteryInfo resp.getValue with
      | .ok info => ({ info with _string := raw }, none)
      | .error m => (⟨0, 0, raw⟩, some (.decodeError m))

/-- Request of `Session.WindowSize` (`src/session.go:216`). -/
def Session.WindowSizeReq (s : Session) : Request :=
  ⟨"GET", "WindowSize", urlJoin s.sessionURL [("/window/size")], newWdaBody⟩

/-- `Session.WindowSize` (`src/session.go:216`). -/
def Session.WindowSize (s : Session) (tr : Transport) :
    WDASize × Option GwdaErr :=
  match tr s.WindowSizeReq with
  | .error e => (⟨0, 0, ""⟩, some e)
  | .ok resp =>
      let raw := resp.getValue.gstring
      match unmarshalWDASize resp.getValue with
      | .ok sz => ({ sz with _string := raw }, none)
      | .error m => (⟨0, 0, raw⟩, some (.decodeError m))

/-- Request of `Session.Screen` (`src/session.go:257`). -/
def Session.ScreenReq (s : Session) : Request :=
  ⟨"GET", "Screen", urlJoin s.sessionURL [("/wda/screen")], newWdaBody⟩

/-- `Session.Screen` (`src/session.go:257`): the nested status-bar raw
text is stored first, then the whole value's raw text, then the typed
fields are unmarshalled. -/
def Session.Screen (s : Session) (tr : Transport) :
    WDAScreen × Option GwdaErr :=
  match tr s.ScreenReq with
  | .error e => (⟨⟨0, 0, ""⟩, 0, ""⟩, some e)
  | .ok resp =>
      let sbRaw := (resp.getValue.jget ("statusBarSize")).gstring
      let raw := resp.getValue.gstring
      match unmarshalWDAScreen resp.getValue with
      | .ok scr =>
          ({ scr with
              StatusBarSize := { scr.StatusBarSize with _string := sbRaw },
              _string := raw }, none)
      | .error m => (⟨⟨0, 0, sbRaw⟩, 0, raw⟩, some (.decodeError m))

/-- `Session.Scale` (`src/session.go:271`): projects `Screen().Scale`,
propagating the error unchanged. -/
def Session.Scale (s : Session) (tr : Transport) : Int × Option GwdaErr :=
  let r := s.Screen tr
  (r.1.Scale, r.2)

/-- `Session.StatusBarSize` (`src/session.go:277`): projects
`Screen().StatusBarSize`, propagating the error unchanged. -/
def Session.StatusBarSize (s : Session) (tr : Transport) :
    WDASize × Option GwdaErr :=
  let r := s.Screen tr
  (r.1.StatusBarSize, r.2)

/-- Request of `Session.Tap` (`src/session.go:315`). -/
def Session.TapReq (s : Session) (x y : Int) : Request :=
  ⟨"POST", "Tap", urlJoin s.sessionURL [("wda"), ("tap"), ("0")],
    newWdaBody.setXY x y⟩

/-- `Session.Tap` (`src/session.go:315`): after a successful transport
call, the envelope's embedded error message is returned. -/
def Session.Tap (s : Session) (x y : Int) (tr : Transport) : Option GwdaErr :=
  match tr (s.TapReq x y) with
  | .error e => some e
  | .ok resp => resp.getErrMsg

/-- Request of `Session.DoubleTap` (`src/session.go:325`). -/
def Session.DoubleTapReq (s : Session) (x y : Int) : Request :=
  ⟨"POST", "DoubleTap", urlJoin s.sessionURL [("wda"), ("doubleTap")],
    newWdaBody.setXY x y⟩

/-- `Session.DoubleTap` (`src/session.go:325`): only the transport error
is returned; the envelope is discarded. -/
def Session.DoubleTap (s : Session) (x y : Int) (tr : Transport) : Option GwdaErr :=
  match tr (s.DoubleTapReq x y) with
  | .error e => some e
  | .ok _ => none

/-- Request of `Session.TouchAndHold` (`src/session.go:332`): the duration
defaults to 1 when the variadic argument is absent. -/
def Session.TouchAndHoldReq (s : Session) (x y : Int) (duration : List Int) : Request :=
  let body := newWdaBody.setXY x y
  let body :=
    if duration.isEmpty then body.set ("duration") (.i 1)
    else body.set ("duration") (.i (duration.headD 1))
  ⟨"POST", "TouchAndHold", urlJoin s.sessionURL [("wda"), ("touchAndHold")], body⟩

/-- `Session.TouchAndHold` (`src/session.go:332`): only the transport
error is returned; the envelope is discarded. -/
def Session.TouchAndHold (s : Session) (x y : Int) (duration : List Int)
    (tr : Transport) : Option GwdaErr :=
  match tr (s.TouchAndHoldReq x y duration) with
  | .error e => some e
  | .ok _ => none

/-- Request of `Session.AppTerminate` (`src/session.go:348`). -/
def Session.AppTerminateReq (s : Session) (bundleId : String) : Request :=
  ⟨"POST", "AppTerminate", urlJoin s.sessionURL [("/wda/apps/terminate")],
    newWdaBody.setBundleID bundleId⟩

/-- `Session.AppTerminate` (`src/session.go:348`): only the transport
error is returned; the envelope is discarded. -/
def Session.AppTerminate (s : Session) (bundleId : String) (tr : Transport) :
    Option GwdaErr :=
  match tr (s.AppTerminateReq bundleId) with
  | .error e => some e
  | .ok _ => none

/-- Request of `Session.AppState` (`src/session.go:381`). -/
def Session.AppStateReq (s : Session) (bundleId : String) : Request :=
  ⟨"POST", "AppState", urlJoin s.sessionURL [("/wda/apps/state")],
    newWdaBody.setBundleID bundleId⟩

/-- `Session.AppState` (`src/session.go:381`): on a transport failure the
sentinel `-1` is returned together with the error; otherwise the integer
the server reported, unvalidated, with no error. -/
def Session.AppState (s : Session) (bundleId : String) (tr : Transport) :
    Int × Option GwdaErr :=
  match tr (s.AppStateReq bundleId) with
  | .error e => (-1, some e)
  | .ok resp => (resp.getValue.gint, none)

/-- Request of `Session.FindElements` (`src/session.go:406`). -/
def Session.FindElementsReq (s : Session) (using_ value : String) : Request :=
  ⟨"POST", "FindElements", urlJoin s.sessionURL [("elements")],
    (newWdaBody.set ("using") (.s using_)).set ("value") (.s value)⟩

/-- `Session.FindElements` (`src/session.go:406`): an empty result array
yields `(nil, NoSuchElement)`; otherwise each reported `ELEMENT` id is
joined onto the session URL to form an element handle. -/
def Session.FindElements (s : Session) (using_ value : String) (tr : Transport) :
    Option (List Element) × Option GwdaErr :=
  match tr (s.FindElementsReq using_ value) with
  | .error e => (none, some e)
  | .ok resp =>
      let results := resp.getValue.gjsonArray
      if results.isEmpty then (none, some .noSuchElement)
      else
        (some (results.map (fun res =>
          ⟨urlJoin s.sessionURL [("element"), (res.jget ("ELEMENT")).gstring]⟩)), none)

/-- Request of `Session.SetPasteboard` (`src/session.go:540`). -/
def Session.SetPasteboardReq (s : Session) (contentType encodedContent : String) :
    Request :=
  ⟨"POST", "SetPasteboard", urlJoin s.sessionURL [("/wda/setPasteboard")],
    (newWdaBody.set ("contentType") (.s contentType)).set
      ("content") (.s encodedContent)⟩

/-- `Session.SetPasteboard` (`src/session.go:540`): only the transport
error is returned; the envelope is discarded. -/
def Session.SetPasteboard (s : Session) (contentType encodedContent : String)
    (tr : Transport) : Option GwdaErr :=
  match tr (s.SetPasteboardReq contentType encodedContent) with
  | .error e => some e
  | .ok _ => none

/-- `Session.SetPasteboardForPlaintext` (`src/session.go:513`): the Go
string argument is its byte sequence here; the payload is its standard
base64 encoding. -/
def Session.SetPasteboardForPlaintext (s : Session) (content : List Nat)
    (tr : Transport) : Option GwdaErr :=
  s.SetPasteboard WDAContentTypePlaintext
    (String.mk (b64Encode stdB64Alphabet content)) tr

/-- `Session.SetPasteboardForUrl` (`src/session.go:534`): the Go string
argument is its byte sequence here; the payload is its URL-safe base64
encoding. -/
def Session.SetPasteboardForUrl (s : Session) (url : List Nat)
    (tr : Transport) : Option GwdaErr :=
  s.SetPasteboard WDAContentTypeUrl
    (String.mk (b64Encode urlB64Alphabet url)) tr

/-- Request of `Session.PressButton` (`src/session.go:572`). -/
def Session.PressButtonReq (s : Session) (wdaDeviceButton : String) : Request :=
  ⟨"POST", "PressButton", urlJoin s.sessionURL [("/wda/pressButton")],
    newWdaBody.set ("name") (.s wdaDeviceButton)⟩

/-- `Session.PressButton` (`src/session.go:572`): only the transport error
is returned; the envelope is discarded. -/
def Session.PressButton (s : Session) (wdaDeviceButton : String)
    (tr : Transport) : Option GwdaErr :=
  match tr (s.PressButtonReq wdaDeviceButton) with
  | .error e => some e
  | .ok _ => none

/-- The local file system as `Session.SetPasteboardForImage` uses it:
`openFile` models `os.Open` (a handle or an error), `readAll` models
`ioutil.ReadAll` on a handle (the file's bytes or an error). -/
structure FileSystem where
  openFile : String → Except String Nat
  readAll : Nat → Except String (List Nat)

/-- `Session.SetPasteboardForImage` (`src/session.go:519`): the result is
paired with the list of file handles closed before returning (the
`defer imgFile.Close()` runs on every exit path after a successful open). -/
def Session.SetPasteboardForImage (s : Session) (filename : String)
    (fsys : FileSystem) (tr : Transport) : Option GwdaErr × List Nat :=
  match fsys.openFile filename with
  | .error m => (some (.ioError m), [])
  | .ok h =>
      match fsys.readAll h with
      | .error m => (some (.ioError m), [h])
      | .ok bytes =>
          (s.SetPasteboard WDAContentTypeImage
            (String.mk (b64Encode stdB64Alphabet bytes)) tr, [h])

/-! ## Claims -/

/-- C3: for every bundle id, `AppLaunch(bundleId)` with no options builds
exactly the same request (and hence the same request body) as
`AppLaunch(bundleId, opt)` where `opt` sets `shouldWaitForQuiescence=true`
and no arguments/environment fields, and the two calls behave
identically. -/
theorem AppLaunch_default_is_quiescence_true (s : Session) (bundleId : String)
    (tr : Transport) :
    s.AppLaunchReq bundleId [] =
      s.AppLaunchReq bundleId [NewWDAAppLaunchOption.SetShouldWaitForQuiescence true]
    ∧ s.AppLaunch bundleId [] tr =
      s.AppLaunch bundleId [NewWDAAppLaunchOption.SetShouldWaitForQuiescence true] tr :=
  ⟨rfl, rfl⟩

/-- C7: `Scale()` is exactly the `Scale` projection of the `Screen()`
result and `StatusBarSize()` exactly the `StatusBarSize` projection, each
paired with the identical (unchanged) error value of `Screen()`. -/
theorem Scale_StatusBarSize_project_Screen (s : Session) (tr : Transport) :
    s.Scale tr = ((s.Screen tr).1.Scale, (s.Screen tr).2)
    ∧ s.StatusBarSize tr = ((s.Screen tr).1.StatusBarSize, (s.Screen tr).2) :=
  ⟨rfl, rfl⟩

/-- C10: when the transport call in `AppState` fails, the sentinel `-1` is
returned together with the error; `-1` is none of the three defined
app-state codes and renders as `"UNKNOWN"`; on transport success the
server-reported integer is returned unvalidated, with no error. -/
theorem AppState_sentinel_and_passthrough (s : Session) (bundleId : String)
    (tr : Transport) (e : GwdaErr) (resp : WdaResponse) :
    (tr (s.AppStateReq bundleId) = .error e →
      s.AppState bundleId tr = (-1, some e))
    ∧ WDAAppRunStateString (-1) = "UNKNOWN"
    ∧ ((-1 : Int) ≠ WDAAppNotRunning ∧ (-1 : Int) ≠ WDAAppRunningBack
        ∧ (-1 : Int) ≠ WDAAppRunningFront)
    ∧ (tr (s.AppStateReq bundleId) = .ok resp →
      s.AppState bundleId tr = (resp.getValue.gint, none)) := by
  refine ⟨?_, by decide, by decide, ?_⟩
  · intro h
    simp [Session.AppState, h]
  · intro h
    simp [Session.AppState, h]

/-- Witness for C10: a concrete transport failure yields `(-1, error)`,
and a concrete success passes the reported integer `4` through. -/
theorem AppState_sentinel_and_passthrough_witness :
    Session.AppState ⟨("http://localhost:8100/session/A")⟩ ("com.apple.Preferences")
        (fun _ => .error (.transportError ("connection refused")))
      = (-1, some (.transportError ("connection refused")))
    ∧ Session.AppState ⟨("http://localhost:8100/session/A")⟩ ("com.apple.Preferences")
        (fun _ => .ok ⟨JVal.jnum 4, ""⟩)
      = (4, none) :=
  ⟨(AppState_sentinel_and_passthrough _ _ _
      (.transportError ("connection refused")) ⟨JVal.jnull, ""⟩).1 rfl,
   (AppState_sentinel_and_passthrough _ _ _
      (.transportError ("connection refused")) ⟨JVal.jnum 4, ""⟩).2.2.2 rfl⟩

/-- C1 counterexample: `DoubleTap` succeeds (returns no error) even though
the transport call succeeded with an envelope carrying the non-empty
embedded error message `"fake error"` — the embedded message is never
checked, contradicting the claim for `DoubleTap`. -/
theorem DoubleTap_ignores_embedded_error :
    Session.DoubleTap ⟨("http://localhost:8100/session/A")⟩ 10 20
        (fun _ => .ok ⟨JVal.jnull, ("fake error")⟩) = none
    ∧ ("fake error" : String) ≠ "" :=
  ⟨rfl, by decide⟩

/-- C1 amended: of the listed operations only `Tap` surfaces the
envelope's non-empty embedded error message as a `ServerError`;
`DoubleTap`, `TouchAndHold`, `AppTerminate`, `SetPasteboard` and
`PressButton` discard the envelope and return success whenever the
transport call succeeds. -/
theorem Tap_reports_server_error_others_ignore (s : Session) (x y d : Int)
    (bundleId contentType encoded button : String) (tr : Transport)
    (resp : WdaResponse) :
    (tr (s.TapReq x y) = .ok resp → resp.errMsg ≠ "" →
      s.Tap x y tr = some (.serverError resp.errMsg))
    ∧ (tr (s.DoubleTapReq x y) = .ok resp → s.DoubleTap x y tr = none)
    ∧ (tr (s.TouchAndHoldReq x y [d]) = .ok resp → s.TouchAndHold x y [d] tr = none)
    ∧ (tr (s.AppTerminateReq bundleId) = .ok resp → s.AppTerminate bundleId tr = none)
    ∧ (tr (s.SetPasteboardReq contentType encoded) = .ok resp →
        s.SetPasteboard contentType encoded tr = none)
    ∧ (tr (s.PressButtonReq button) = .ok resp → s.PressButton button tr = none) := by
  refine ⟨?_, ?_, ?_, ?_, ?_, ?_⟩
  · intro h hne
    simp [Session.Tap, h, WdaResponse.getErrMsg, hne]
  · intro h
    simp [Session.DoubleTap, h]
  · intro h
    simp [Session.TouchAndHold, h]
  · intro h
    simp [Session.AppTerminate, h]
  · intro h
    simp [Session.SetPasteboard, h]
  · intro h
    simp [Session.PressButton, h]

/-- Witness for the C1 amended theorem: with a concrete envelope carrying
the embedded message `"boom"`, `Tap` returns the `ServerError` and
`PressButton` returns success. -/
theorem Tap_reports_server_error_others_ignore_witness :
    Session.Tap ⟨("http://localhost:8100/session/A")⟩ 1 2
        (fun _ => .ok ⟨JVal.jnull, ("boom")⟩) = some (.serverError ("boom"))
    ∧ Session.PressButton ⟨("http://localhost:8100/session/A")⟩ ("home")
        (fun _ => .ok ⟨JVal.jnull, ("boom")⟩) = none :=
  ⟨(Tap_reports_server_error_others_ignore ⟨("http://localhost:8100/session/A")⟩
      1 2 1 ("b") ("plaintext") ("c") ("home") _ ⟨JVal.jnull, ("boom")⟩).1
        rfl (by decide),
   (Tap_reports_server_error_others_ignore ⟨("http://localhost:8100/session/A")⟩
      1 2 1 ("b") ("plaintext") ("c") ("home") _ ⟨JVal.jnull, ("boom")⟩).2.2.2.2.2
        rfl⟩

/-- C2: when the transport succeeds and the response value is a non-empty
array, `FindElements` returns a non-empty list of element handles whose
URLs all extend the session's base URL; when the value is an empty array
it returns `(nil, NoSuchElement)`. -/
theorem FindElements_array_semantics (s : Session) (using_ value : String)
    (tr : Transport) (resp : WdaResponse) (xs : List JVal)
    (hok : tr (s.FindElementsReq using_ value) = .ok resp)
    (hval : resp.value = .jarr xs) :
    (xs = [] → s.FindElements using_ value tr = (none, some .noSuchElement))
    ∧ (xs ≠ [] → ∃ es, s.FindElements using_ value tr = (some es, none)
        ∧ es ≠ [] ∧ ∀ e ∈ es, urlHasBase s.sessionURL e.elementURL) := by
  constructor
  · intro hnil
    subst hnil
    simp [Session.FindElements, hok, WdaResponse.getValue, hval, JVal.gjsonArray]
  · intro hne
    refine ⟨xs.map (fun res =>
      ⟨urlJoin s.sessionURL [("element"), (res.jget ("ELEMENT")).gstring]⟩), ?_, ?_, ?_⟩
    · simp [Session.FindElements, hok, WdaResponse.getValue, hval,
        JVal.gjsonArray, List.isEmpty_iff, hne]
    · simp [hne]
    · intro e he
      simp only [List.mem_map] at he
      obtain ⟨r, _, rfl⟩ := he
      exact urlJoin_hasBase _ _

/-- Witness for C2: a server reporting one element id yields one handle
whose URL extends the base URL, and a server reporting `[]` yields
`(nil, NoSuchElement)`. -/
theorem FindElements_array_semantics_witness :
    (∃ es, Session.FindElements ⟨("http://localhost:8100/session/A")⟩
        ("link text") ("login")
        (fun _ => .ok ⟨JVal.jarr [JVal.jobj [(("ELEMENT"), JVal.jstr ("id1"))]], ""⟩)
      = (some es, none)
      ∧ es ≠ [] ∧ ∀ e ∈ es, urlHasBase ("http://localhost:8100/session/A") e.elementURL)
    ∧ Session.FindElements ⟨("http://localhost:8100/session/A")⟩ ("id") ("x")
        (fun _ => .ok ⟨JVal.jarr [], ""⟩)
      = (none, some .noSuchElement) :=
  ⟨(FindElements_array_semantics ⟨("http://localhost:8100/session/A")⟩
      ("link text") ("login") _ ⟨JVal.jarr [JVal.jobj [(("ELEMENT"), JVal.jstr ("id1"))]], ""⟩
      [JVal.jobj [(("ELEMENT"), JVal.jstr ("id1"))]] rfl rfl).2
        (List.cons_ne_nil _ _),
   (FindElements_array_semantics ⟨("http://localhost:8100/session/A")⟩
      ("id") ("x") _ ⟨JVal.jarr [], ""⟩ [] rfl rfl).1 rfl⟩

/-- C4 counterexample: a `BatteryInfo` call that succeeds (no error
returned) can carry the state code `0`, which is none of the three defined
codes — the decoder passes the server's integer through unvalidated. -/
theorem BatteryInfo_state_unvalidated_cex :
    (Session.BatteryInfo ⟨("http://localhost:8100/session/A")⟩
        (fun _ => .ok ⟨JVal.jobj [(("level"), JVal.jnum 1), (("state"), JVal.jnum 0)], ""⟩)).2
      = none
    ∧ (Session.BatteryInfo ⟨("http://localhost:8100/session/A")⟩
        (fun _ => .ok ⟨JVal.jobj [(("level"), JVal.jnum 1), (("state"), JVal.jnum 0)], ""⟩)).1.State
      = 0
    ∧ ((0 : Int) ≠ WDABatteryUnplugged ∧ (0 : Int) ≠ WDABatteryCharging
        ∧ (0 : Int) ≠ WDABatteryFull) :=
  ⟨rfl, rfl, by decide⟩

/-- C4 amended: a successful `BatteryInfo` call returns the state integer
exactly as the server reported it, unvalidated; `String()` of each of the
three defined codes yields exactly the documented phrase. -/
theorem BatteryInfo_state_passthrough_and_strings (s : Session) (tr : Transport)
    (resp : WdaResponse) (fs : List (String × JVal)) (lv st : Int)
    (hok : tr s.BatteryInfoReq = .ok resp)
    (hval : resp.value = .jobj fs)
    (hlv : jsonNumField fs ("level") = .ok lv)
    (hst : jsonNumField fs ("state") = .ok st) :
    (s.BatteryInfo tr).1.State = st ∧ (s.BatteryInfo tr).2 = none
    ∧ WDABatteryStateString WDABatteryUnplugged = "On battery, discharging"
    ∧ WDABatteryStateString WDABatteryCharging = "Plugged in, less than 100%"
    ∧ WDABatteryStateString WDABatteryFull = "Plugged in, at 100%" := by
  have hdec : unmarshalWDABatteryInfo (WdaResponse.getValue resp)
      = .ok ⟨lv, st, ""⟩ := by
    simp [unmarshalWDABatteryInfo, WdaResponse.getValue, hval, hlv, hst]
    rfl
  refine ⟨?_, ?_, by decide, by decide, by decide⟩
  · simp [Session.BatteryInfo, hok, hdec]
  · simp [Session.BatteryInfo, hok, hdec]

/-- Witness for the C4 amended theorem: the documented scenario
`state = 2` decodes to `State = 2`, whose rendering is
`"Plugged in, less than 100%"`. -/
theorem BatteryInfo_state_passthrough_witness :
    (Session.BatteryInfo ⟨("http://localhost:8100/session/A")⟩
        (fun _ => .ok ⟨JVal.jobj [(("level"), JVal.jnum 1), (("state"), JVal.jnum 2)], ""⟩)).1.State
      = 2
    ∧ WDABatteryStateString 2 = "Plugged in, less than 100%" :=
  ⟨(BatteryInfo_state_passthrough_and_strings ⟨("http://localhost:8100/session/A")⟩ _
      ⟨JVal.jobj [(("level"), JVal.jnum 1), (("state"), JVal.jnum 2)], ""⟩
      [(("level"), JVal.jnum 1), (("state"), JVal.jnum 2)] 1 2 rfl rfl rfl rfl).1,
   (BatteryInfo_state_passthrough_and_strings ⟨("http://localhost:8100/session/A")⟩
      (fun _ => .ok ⟨JVal.jobj [(("level"), JVal.jnum 1), (("state"), JVal.jnum 2)], ""⟩)
      ⟨JVal.jobj [(("level"), JVal.jnum 1), (("state"), JVal.jnum 2)], ""⟩
      [(("level"), JVal.jnum 1), (("state"), JVal.jnum 2)] 1 2 rfl rfl rfl rfl).2.2.2.1⟩

/-- C5: each typed-info operation stores the raw JSON text of the
response's value payload in the struct's retained `_string` before
decoding, and decoding never changes it — the equality holds whether or
not the decode succeeds. -/
theorem typed_info_retains_raw_value_text (s : Session) (tr : Transport)
    (resp : WdaResponse) (fs : List (String × JVal))
    (hval : resp.value = .jobj fs) :
    (tr s.GetActiveSessionReq = .ok resp →
      (s.GetActiveSession tr).1._string = resp.value.rawText)
    ∧ (tr s.DeviceInfoReq = .ok resp →
      (s.DeviceInfo tr).1._string = resp.value.rawText)
    ∧ (tr s.BatteryInfoReq = .ok resp →
      (s.BatteryInfo tr).1._string = resp.value.rawText)
    ∧ (tr s.WindowSizeReq = .ok resp →
      (s.WindowSize tr).1._string = resp.value.rawText)
    ∧ (tr s.ScreenReq = .ok resp →
      (s.Screen tr).1._string = resp.value.rawText) := by
  refine ⟨?_, ?_, ?_, ?_, ?_⟩
  · intro h
    cases hdec : unmarshalWDASessionInfo (JVal.jobj fs) with
    | ok info =>
        simp [Session.GetActiveSession, h, hdec, WdaResponse.getValue, hval, JVal.gstring]
    | error m =>
        simp [Session.GetActiveSession, h, hdec, WdaResponse.getValue, hval, JVal.gstring]
  · intro h
    cases hdec : unmarshalWDADeviceInfo (JVal.jobj fs) with
    | ok info =>
        simp [Session.DeviceInfo, h, hdec, WdaResponse.getValue, hval, JVal.gstring]
    | error m =>
        simp [Session.DeviceInfo, h, hdec, WdaResponse.getValue, hval, JVal.gstring]
  · intro h
    cases hdec : unmarshalWDABatteryInfo (JVal.jobj fs) with
    | ok info =>
        simp [Session.BatteryInfo, h, hdec, WdaResponse.getValue, hval, JVal.gstring]
    | error m =>
        simp [Session.BatteryInfo, h, hdec, WdaResponse.getValue, hval, JVal.gstring]
  · intro h
    cases hdec : unmarshalWDASize (JVal.jobj fs) with
    | ok info =>
        simp [Session.WindowSize, h, hdec, WdaResponse.getValue, hval, JVal.gstring]
    | error m =>
        simp [Session.WindowSize, h, hdec, WdaResponse.getValue, hval, JVal.gstring]
  · intro h
    cases hdec : unmarshalWDAScreen (JVal.jobj fs) with
    | ok info =>
        simp [Session.Screen, h, hdec, WdaResponse.getValue, hval, JVal.gstring]
    | error m =>
        simp [Session.Screen, h, hdec, WdaResponse.getValue, hval, JVal.gstring]

/-- Witness for C5: with a concrete battery payload whose `state` field is
a string (a decode failure), `BatteryInfo` still retains the raw value
text and reports a `DecodeError`. -/
theorem typed_info_retains_raw_value_text_witness :
    (Session.BatteryInfo ⟨("http://localhost:8100/session/A")⟩
        (fun _ => .ok ⟨JVal.jobj [(("state"), JVal.jstr ("two"))], ""⟩)).1._string
      = (JVal.jobj [(("state"), JVal.jstr ("two"))]).rawText
    ∧ (Session.BatteryInfo ⟨("http://localhost:8100/session/A")⟩
        (fun _ => .ok ⟨JVal.jobj [(("state"), JVal.jstr ("two"))], ""⟩)).2
      = some (.decodeError ("json: cannot unmarshal field state into number")) :=
  ⟨(typed_info_retains_raw_value_text ⟨("http://localhost:8100/session/A")⟩
      (fun _ => .ok ⟨JVal.jobj [(("state"), JVal.jstr ("two"))], ""⟩)
      ⟨JVal.jobj [(("state"), JVal.jstr ("two"))], ""⟩
      [(("state"), JVal.jstr ("two"))] rfl).2.2.1 rfl,
   rfl⟩

/-- C6: `SetPasteboardForPlaintext(content)` posts a `content` field that
is the standard base64 encoding of `content`, and decoding that field with
the standard base64 decoder yields back exactly `content`. -/
theorem SetPasteboardForPlaintext_base64_roundtrip (s : Session)
    (content : List Nat) (tr : Transport) (hb : ∀ b ∈ content, b < 256) :
    s.SetPasteboardForPlaintext content tr
      = s.SetPasteboard WDAContentTypePlaintext
          (String.mk (b64Encode stdB64Alphabet content)) tr
    ∧ (s.SetPasteboardReq WDAContentTypePlaintext
        (String.mk (b64Encode stdB64Alphabet content))).body.get ("content")
      = some (.s (String.mk (b64Encode stdB64Alphabet content)))
    ∧ b64Decode stdB64Alphabet (b64Encode stdB64Alphabet content) = some content :=
  ⟨rfl, rfl, b64_roundtrip_std content hb⟩

/-- Witness for C6: the documented example input `"hello"`
(bytes 104 101 108 108 111) round-trips through the posted payload. -/
theorem SetPasteboardForPlaintext_base64_roundtrip_witness :
    (∀ b ∈ [104, 101, 108, 108, 111], b < 256)
    ∧ b64Decode stdB64Alphabet (b64Encode stdB64Alphabet [104, 101, 108, 108, 111])
      = some [104, 101, 108, 108, 111] :=
  ⟨by decide,
   (SetPasteboardForPlaintext_base64_roundtrip ⟨("http://localhost:8100/session/A")⟩
      [104, 101, 108, 108, 111] (fun _ => .ok ⟨JVal.jnull, ""⟩) (by decide)).2.2⟩

/-- C8: `SetPasteboardForImage` fails with an `IOError` when the file
cannot be opened or read, and on every exit path after a successful open
(read failure or success) the opened handle has been closed before the
function returns. -/
theorem SetPasteboardForImage_ioerror_and_close (s : Session) (filename : String)
    (fsys : FileSystem) (tr : Transport) :
    (∀ m, fsys.openFile filename = .error m →
      s.SetPasteboardForImage filename fsys tr = (some (.ioError m), []))
    ∧ (∀ h m, fsys.openFile filename = .ok h → fsys.readAll h = .error m →
      s.SetPasteboardForImage filename fsys tr = (some (.ioError m), [h]))
    ∧ (∀ h bytes, fsys.openFile filename = .ok h → fsys.readAll h = .ok bytes →
      (s.SetPasteboardForImage filename fsys tr).2 = [h]) := by
  refine ⟨?_, ?_, ?_⟩
  · intro m hopen
    simp [Session.SetPasteboardForImage, hopen]
  · intro h m hopen hread
    simp [Session.SetPasteboardForImage, hopen, hread]
  · intro h bytes hopen hread
    simp [Session.SetPasteboardForImage, hopen, hread]

/-- Witness for C8: a concrete file system where the open succeeds with
handle 7 and the read fails — the call reports the `IOError` and handle 7
is closed; and one where the open itself fails. -/
theorem SetPasteboardForImage_ioerror_and_close_witness :
    Session.SetPasteboardForImage ⟨("http://localhost:8100/session/A")⟩ ("img.png")
        ⟨fun _ => .ok 7, fun _ => .error ("read failure")⟩
        (fun _ => .ok ⟨JVal.jnull, ""⟩)
      = (some (.ioError ("read failure")), [7])
    ∧ Session.SetPasteboardForImage ⟨("http://localhost:8100/session/A")⟩ ("img.png")
        ⟨fun _ => .error ("no such file"), fun _ => .ok []⟩
        (fun _ => .ok ⟨JVal.jnull, ""⟩)
      = (some (.ioError ("no such file")), []) :=
  ⟨(SetPasteboardForImage_ioerror_and_close ⟨("http://localhost:8100/session/A")⟩
      ("img.png") ⟨fun _ => .ok 7, fun _ => .error ("read failure")⟩
      (fun _ => .ok ⟨JVal.jnull, ""⟩)).2.1 7 ("read failure") rfl rfl,
   (SetPasteboardForImage_ioerror_and_close ⟨("http://localhost:8100/session/A")⟩
      ("img.png") ⟨fun _ => .error ("no such file"), fun _ => .ok []⟩
      (fun _ => .ok ⟨JVal.jnull, ""⟩)).1 ("no such file") rfl⟩

/-- C9: `SetPasteboardForUrl` encodes its payload with the URL-safe base64
alphabet while `SetPasteboardForPlaintext` and `SetPasteboardForImage` use
the standard alphabet, so whenever the standard encoding of the input
contains `+` or `/` the URL wrapper's payload differs from the standard
base64 encoding of the same input. -/
theorem SetPasteboardForUrl_urlsafe_alphabet (s : Session) (input : List Nat)
    (tr : Transport) (fsys : FileSystem) (hdl : Nat) (filename : String)
    (hb : ∀ b ∈ input, b < 256)
    (hopen : fsys.openFile filename = .ok hdl)
    (hread : fsys.readAll hdl = .ok input)
    (hch : '+' ∈ b64Encode stdB64Alphabet input
        ∨ '/' ∈ b64Encode stdB64Alphabet input) :
    s.SetPasteboardForUrl input tr
      = s.SetPasteboard WDAContentTypeUrl
          (String.mk (b64Encode urlB64Alphabet input)) tr
    ∧ s.SetPasteboardForPlaintext input tr
      = s.SetPasteboard WDAContentTypePlaintext
          (String.mk (b64Encode stdB64Alphabet input)) tr
    ∧ s.SetPasteboardForImage filename fsys tr
      = (s.SetPasteboard WDAContentTypeImage
          (String.mk (b64Encode stdB64Alphabet input)) tr, [hdl])
    ∧ String.mk (b64Encode urlB64Alphabet input)
      ≠ String.mk (b64Encode stdB64Alphabet input) := by
  refine ⟨rfl, rfl, ?_, ?_⟩
  · simp [Session.SetPasteboardForImage, hopen, hread]
  · intro hstr
    exact b64_url_ne_std input hb hch (congrArg String.data hstr)

/-- Witness for C9: byte 248 standard-encodes to `"+A=="` (containing
`+`), and its URL-safe encoding `"-A=="` differs. -/
theorem SetPasteboardForUrl_urlsafe_alphabet_witness :
    ('+' ∈ b64Encode stdB64Alphabet [248] ∨ '/' ∈ b64Encode stdB64Alphabet [248])
    ∧ String.mk (b64Encode urlB64Alphabet [248])
      ≠ String.mk (b64Encode stdB64Alphabet [248]) :=
  ⟨by decide,
   (SetPasteboardForUrl_urlsafe_alphabet ⟨("http://localhost:8100/session/A")⟩
      [248] (fun _ => .ok ⟨JVal.jnull, ""⟩)
      ⟨fun _ => .ok 7, fun _ => .ok [248]⟩ 7 ("img.png")
      (by decide) rfl rfl (by decide)).2.2.2⟩
